import Mathlib

/-!
Verification of the TransformerBee.mcp gateway logic (rate limiting, token
verification, error translation, health probing, and the conversion and
summarization tool pipeline) against its natural-language specification.

Shallow embedding notes: timestamps produced by `datetime.now(timezone.utc)`
are modelled as exact rational numbers of seconds (Python datetimes are
microsecond-precision fixed-point values, so all comparisons are exact);
the per-identity timestamp store `_rate_limit_store[user_id]` is modelled
as a `List ℚ`; HTTP exceptions become explicit result constructors.
-/

/-- Configuration of the rate limiter: `_RATE_LIMIT` (default 10) and
`_RATE_WINDOW_SECONDS` (default 60), from rest_api.py lines 37-38. -/
structure RateLimitConfig where
  limit : Nat
  windowSeconds : ℚ
deriving DecidableEq

/-- Outcome of one `check_rate_limit` admission decision: either the request
is admitted, or an HTTPException with a status code and detail message is
raised (rest_api.py line 122). -/
inductive AdmitResult where
  | ok : AdmitResult
  | rateLimitExceeded (status : Nat) (detail : String) : AdmitResult
deriving DecidableEq

/-- The detail string of the 429 response raised by `check_rate_limit`
(rest_api.py line 122). -/
def rateLimitDetail (limit : Nat) : String :=
  "Rate limit exceeded. Max " ++ toString limit ++ " requests per minute."

/-- Embedding of `check_rate_limit` (rest_api.py lines 105-124) acting on one
identity's stored timestamp list: prune entries not strictly newer than
`now - windowSeconds`, compare the pruned length against the limit, and only
on admission append `now`.  Returns the decision together with the new stored
list (the pruning is stored even when the request is rejected, exactly as the
Python assignment on line 118 happens before the raise on line 122). -/
def check_rate_limit (cfg : RateLimitConfig) (store : List ℚ) (now : ℚ) :
    AdmitResult × List ℚ :=
  if cfg.limit ≤ (store.filter (fun t => decide (now - cfg.windowSeconds < t))).length then
    (AdmitResult.rateLimitExceeded 429 (rateLimitDetail cfg.limit),
      store.filter (fun t => decide (now - cfg.windowSeconds < t)))
  else
    (AdmitResult.ok,
      store.filter (fun t => decide (now - cfg.windowSeconds < t)) ++ [now])

/-- Running a sequence of `check_rate_limit` calls for one identity at the
given call times, threading the stored timestamp list through. -/
def runCalls (cfg : RateLimitConfig) : List ℚ → List ℚ → List AdmitResult × List ℚ
  | store, [] => ([], store)
  | store, t :: rest =>
    let r := check_rate_limit cfg store t
    let rr := runCalls cfg r.2 rest
    (r.1 :: rr.1, rr.2)

theorem filter_window_eq_self (w : ℚ) (store : List ℚ) (now : ℚ)
    (h : ∀ s ∈ store, now - w < s) :
    store.filter (fun t => decide (now - w < t)) = store := by
  rw [List.filter_eq_self]
  intro a ha
  exact decide_eq_true (h a ha)

theorem check_rate_limit_admits (cfg : RateLimitConfig) (store : List ℚ) (now : ℚ)
    (hfresh : ∀ s ∈ store, now - cfg.windowSeconds < s)
    (hlen : store.length < cfg.limit) :
    check_rate_limit cfg store now = (AdmitResult.ok, store ++ [now]) := by
  rw [check_rate_limit, filter_window_eq_self cfg.windowSeconds store now hfresh,
    if_neg (not_le.mpr hlen)]

theorem check_rate_limit_rejects (cfg : RateLimitConfig) (store : List ℚ) (now : ℚ)
    (hfresh : ∀ s ∈ store, now - cfg.windowSeconds < s)
    (hlen : cfg.limit ≤ store.length) :
    check_rate_limit cfg store now =
      (AdmitResult.rateLimitExceeded 429 (rateLimitDetail cfg.limit), store) := by
  rw [check_rate_limit, filter_window_eq_self cfg.windowSeconds store now hfresh,
    if_pos hlen]

theorem runCalls_all_admitted (cfg : RateLimitConfig) :
    ∀ (ts store : List ℚ),
    store.length + ts.length ≤ cfg.limit →
    (∀ s ∈ store, ∀ t ∈ ts, t - cfg.windowSeconds < s) →
    (∀ s ∈ ts, ∀ t ∈ ts, t - cfg.windowSeconds < s) →
    runCalls cfg store ts = (List.replicate ts.length AdmitResult.ok, store ++ ts) := by
  intro ts
  induction ts with
  | nil =>
    intro store _ _ _
    simp [runCalls]
  | cons t rest ih =>
    intro store hlen hfresh hts
    have hstep : check_rate_limit cfg store t = (AdmitResult.ok, store ++ [t]) := by
      refine check_rate_limit_admits cfg store t ?_ ?_
      · intro s hs
        exact hfresh s hs t (by simp)
      · simp only [List.length_cons] at hlen
        omega
    have hrec : runCalls cfg (store ++ [t]) rest =
        (List.replicate rest.length AdmitResult.ok, (store ++ [t]) ++ rest) := by
      refine ih (store ++ [t]) ?_ ?_ ?_
      · simp only [List.length_append, List.length_cons] at hlen ⊢
        simp only [List.length_cons, List.length_nil]
        omega
      · intro s hs t2 ht2
        rcases List.mem_append.mp hs with hs1 | hs1
        · exact hfresh s hs1 t2 (List.mem_cons_of_mem t ht2)
        · have hst : s = t := by simpa using hs1
          rw [hst]
          exact hts t (by simp) t2 (List.mem_cons_of_mem t ht2)
      · intro s hs t2 ht2
        exact hts s (List.mem_cons_of_mem t hs) t2 (List.mem_cons_of_mem t ht2)
    simp only [runCalls, hstep, hrec, List.length_cons, List.replicate_succ,
      List.append_assoc, List.singleton_append]

/-- Claim C1: for every identity, starting from an empty window, each of the
first `limit` admit calls within one window of `windowSeconds` succeeds, the
`(limit+1)`-th call inside the same window fails with the 429
RateLimitExceeded response, and a call made at least `windowSeconds` after
the first recorded call of the previously-full window succeeds again:
the window slides rather than using fixed buckets. -/
theorem c1_rate_limiter_sliding_window (cfg : RateLimitConfig) (t1 : ℚ) (rest : List ℚ)
    (hlen : rest.length + 1 = cfg.limit)
    (hwin : ∀ s ∈ t1 :: rest, ∀ t ∈ t1 :: rest, t - cfg.windowSeconds < s)
    (tReject : ℚ) (hReject : ∀ s ∈ t1 :: rest, tReject - cfg.windowSeconds < s)
    (tSlide : ℚ) (hSlide : t1 + cfg.windowSeconds ≤ tSlide) :
    (runCalls cfg [] (t1 :: rest)).1 = List.replicate cfg.limit AdmitResult.ok ∧
    (check_rate_limit cfg (runCalls cfg [] (t1 :: rest)).2 tReject).1 =
      AdmitResult.rateLimitExceeded 429 (rateLimitDetail cfg.limit) ∧
    (check_rate_limit cfg
      (check_rate_limit cfg (runCalls cfg [] (t1 :: rest)).2 tReject).2 tSlide).1 =
      AdmitResult.ok := by
  have hrun : runCalls cfg [] (t1 :: rest) =
      (List.replicate (t1 :: rest).length AdmitResult.ok, [] ++ (t1 :: rest)) := by
    refine runCalls_all_admitted cfg (t1 :: rest) [] ?_ ?_ hwin
    · simp only [List.length_nil, List.length_cons]
      omega
    · intro s hs
      exact absurd hs (List.not_mem_nil s)
  have hstore : (runCalls cfg [] (t1 :: rest)).2 = t1 :: rest := by
    simp [hrun]
  have hrej : check_rate_limit cfg (t1 :: rest) tReject =
      (AdmitResult.rateLimitExceeded 429 (rateLimitDetail cfg.limit), t1 :: rest) := by
    refine check_rate_limit_rejects cfg (t1 :: rest) tReject hReject ?_
    simp only [List.length_cons]
    omega
  refine ⟨?_, ?_, ?_⟩
  · rw [hrun]
    simp only [List.length_cons, hlen]
  · rw [hstore, hrej]
  · rw [hstore, hrej]
    have hdrop : decide (tSlide - cfg.windowSeconds < t1) = false := by
      simp only [decide_eq_false_iff_not, not_lt]
      linarith
    have hfilter : (t1 :: rest).filter (fun t => decide (tSlide - cfg.windowSeconds < t)) =
        rest.filter (fun t => decide (tSlide - cfg.windowSeconds < t)) := by
      simp [List.filter, hdrop]
    rw [check_rate_limit, hfilter]
    have hshort : (rest.filter (fun t => decide (tSlide - cfg.windowSeconds < t))).length
        < cfg.limit := by
      have := List.length_filter_le (fun t => decide (tSlide - cfg.windowSeconds < t)) rest
      omega
    rw [if_neg (not_le.mpr hshort)]

/-- Witness for C1 at the default configuration (limit 10, window 60 s):
ten calls at seconds 0..9 all succeed, the eleventh at second 10 is rejected
with 429, and a call at second 60 (60 s after the first recorded call)
succeeds again. -/
theorem c1_rate_limiter_sliding_window_witness :
    (runCalls ⟨10, 60⟩ [] [(0 : ℚ), 1, 2, 3, 4, 5, 6, 7, 8, 9]).1 =
      List.replicate 10 AdmitResult.ok ∧
    (check_rate_limit ⟨10, 60⟩
      (runCalls ⟨10, 60⟩ [] [(0 : ℚ), 1, 2, 3, 4, 5, 6, 7, 8, 9]).2 10).1 =
      AdmitResult.rateLimitExceeded 429 (rateLimitDetail 10) ∧
    (check_rate_limit ⟨10, 60⟩
      (check_rate_limit ⟨10, 60⟩
        (runCalls ⟨10, 60⟩ [] [(0 : ℚ), 1, 2, 3, 4, 5, 6, 7, 8, 9]).2 10).2 60).1 =
      AdmitResult.ok :=
  c1_rate_limiter_sliding_window ⟨10, 60⟩ 0 [1, 2, 3, 4, 5, 6, 7, 8, 9]
    (by norm_num)
    (by
      intro s hs t ht
      simp only [List.mem_cons, List.not_mem_nil, or_false] at hs ht
      rcases hs with h | h | h | h | h | h | h | h | h | h <;>
        rcases ht with h2 | h2 | h2 | h2 | h2 | h2 | h2 | h2 | h2 | h2 <;>
          rw [h, h2] <;> norm_num)
    10
    (by
      intro s hs
      simp only [List.mem_cons, List.not_mem_nil, or_false] at hs
      rcases hs with h | h | h | h | h | h | h | h | h | h <;> rw [h] <;> norm_num)
    60 (by norm_num)

/-- Claim C4: when `check_rate_limit` rejects a request, the stored timestamp
sequence does not grow: the new stored list is a sublist of the old one (the
rejected attempt's timestamp is never appended), and repeating the rejected
check at the same time again rejects and leaves the stored list unchanged. -/
theorem c4_rejection_not_recorded (cfg : RateLimitConfig) (store : List ℚ) (now : ℚ)
    (status : Nat) (detail : String)
    (h : (check_rate_limit cfg store now).1 = AdmitResult.rateLimitExceeded status detail) :
    (check_rate_limit cfg store now).2.Sublist store ∧
    (check_rate_limit cfg store now).2.length ≤ store.length ∧
    check_rate_limit cfg ((check_rate_limit cfg store now).2) now =
      (AdmitResult.rateLimitExceeded status detail, (check_rate_limit cfg store now).2) := by
  by_cases hc :
      cfg.limit ≤ (store.filter (fun t => decide (now - cfg.windowSeconds < t))).length
  · have heq : check_rate_limit cfg store now =
        (AdmitResult.rateLimitExceeded 429 (rateLimitDetail cfg.limit),
          store.filter (fun t => decide (now - cfg.windowSeconds < t))) := by
      rw [check_rate_limit, if_pos hc]
    rw [heq] at h ⊢
    have hstatus : status = 429 ∧ detail = rateLimitDetail cfg.limit := by
      cases h
      exact ⟨rfl, rfl⟩
    have hidem :
        (store.filter (fun t => decide (now - cfg.windowSeconds < t))).filter
          (fun t => decide (now - cfg.windowSeconds < t)) =
        store.filter (fun t => decide (now - cfg.windowSeconds < t)) := by
      rw [List.filter_eq_self]
      intro a ha
      exact (List.mem_filter.mp ha).2
    refine ⟨List.filter_sublist store, List.length_filter_le _ store, ?_⟩
    rw [check_rate_limit, hidem, if_pos hc, hstatus.1, hstatus.2]
  · have heq : check_rate_limit cfg store now =
        (AdmitResult.ok,
          store.filter (fun t => decide (now - cfg.windowSeconds < t)) ++ [now]) := by
      rw [check_rate_limit, if_neg hc]
    rw [heq] at h
    cases h

/-- Witness for C4: with limit 1 and an already-recorded timestamp 0 still
inside the window, a second request at time 0 is rejected, the stored list
stays [0], and re-checking rejects again with the same stored list. -/
theorem c4_rejection_not_recorded_witness :
    (check_rate_limit ⟨1, 60⟩ [(0 : ℚ)] 0).2.Sublist [(0 : ℚ)] ∧
    (check_rate_limit ⟨1, 60⟩ [(0 : ℚ)] 0).2.length ≤ [(0 : ℚ)].length ∧
    check_rate_limit ⟨1, 60⟩ ((check_rate_limit ⟨1, 60⟩ [(0 : ℚ)] 0).2) 0 =
      (AdmitResult.rateLimitExceeded 429 (rateLimitDetail 1),
        (check_rate_limit ⟨1, 60⟩ [(0 : ℚ)] 0).2) :=
  c4_rejection_not_recorded ⟨1, 60⟩ [(0 : ℚ)] 0 429 (rateLimitDetail 1)
    (by
      rw [check_rate_limit_rejects ⟨1, 60⟩ [(0 : ℚ)] 0 (by norm_num) (by norm_num)])

/-- Claim C5: after a `check_rate_limit` evaluation at time `now` (with a
positive window), every timestamp left in the store is strictly newer than
`now - windowSeconds`, an entry exactly equal to the window start is pruned,
and the request is admitted exactly when the pruned count — taken before the
current request's timestamp is appended — is below the limit. -/
theorem c5_store_invariant (cfg : RateLimitConfig) (store : List ℚ) (now : ℚ)
    (hw : 0 < cfg.windowSeconds) :
    (∀ t ∈ (check_rate_limit cfg store now).2, now - cfg.windowSeconds < t) ∧
    (now - cfg.windowSeconds) ∉ (check_rate_limit cfg store now).2 ∧
    ((check_rate_limit cfg store now).1 = AdmitResult.ok ↔
      (store.filter (fun t => decide (now - cfg.windowSeconds < t))).length < cfg.limit) := by
  have hmem : ∀ t ∈ (check_rate_limit cfg store now).2, now - cfg.windowSeconds < t := by
    intro t ht
    by_cases hc :
        cfg.limit ≤ (store.filter (fun t => decide (now - cfg.windowSeconds < t))).length
    · rw [check_rate_limit, if_pos hc] at ht
      exact of_decide_eq_true (List.mem_filter.mp ht).2
    · rw [check_rate_limit, if_neg hc] at ht
      rcases List.mem_append.mp ht with h1 | h1
      · exact of_decide_eq_true (List.mem_filter.mp h1).2
      · have : t = now := by simpa using h1
        rw [this]
        exact sub_lt_self now hw
  refine ⟨hmem, ?_, ?_⟩
  · intro hcontra
    exact absurd (hmem _ hcontra) (lt_irrefl _)
  · by_cases hc :
        cfg.limit ≤ (store.filter (fun t => decide (now - cfg.windowSeconds < t))).length
    · rw [check_rate_limit, if_pos hc]
      simp only [not_lt.mpr hc, iff_false]
      intro hcontra
      cases hcontra
    · rw [check_rate_limit, if_neg hc]
      simp only [not_le.mp hc, iff_true]

/-- Witness for C5 at the default configuration, an empty store and time 0. -/
theorem c5_store_invariant_witness :
    (∀ t ∈ (check_rate_limit ⟨10, 60⟩ [] 0).2, (0 : ℚ) - 60 < t) ∧
    ((0 : ℚ) - 60) ∉ (check_rate_limit ⟨10, 60⟩ [] 0).2 ∧
    ((check_rate_limit ⟨10, 60⟩ [] 0).1 = AdmitResult.ok ↔
      (List.filter (fun t => decide ((0 : ℚ) - 60 < t)) []).length < 10) :=
  c5_store_invariant ⟨10, 60⟩ [] 0 (by norm_num)

/-- Auth0 configuration of the token verifier: `_AUTH0_DOMAIN` and
`_AUTH0_AUDIENCE` (rest_api.py lines 26-27). -/
structure AuthConfig where
  audience : String
  domain : String
deriving DecidableEq

/-- The issuer string `verify_token` passes to the decode step:
so-called f-string "https://{domain}/" (rest_api.py line 97). -/
def issuerOf (cfg : AuthConfig) : String :=
  "https://" ++ cfg.domain ++ "/"

/-- A presented bearer token as seen through the decode step: whether it
parses at all, whether its signature verifies against the key resolved from
the configured JWKS endpoint, and its registered claims. -/
structure JwtToken where
  wellFormed : Bool
  signatureValid : Bool
  aud : String
  iss : String
  exp : Int
  iat : Int
  sub : Option String
deriving DecidableEq

/-- The decoded JWT payload returned on success (rest_api.py lines 81-88
document its minimum fields: sub, aud, iss, exp, iat). -/
structure Claims where
  sub : Option String
  aud : String
  iss : String
  exp : Int
  iat : Int
deriving DecidableEq

/-- The validation failures of the decode step; each is a subclass of the
jwt library's InvalidTokenError and is caught by the single except clause of
`verify_token` (rest_api.py line 100). -/
inductive JwtCheckError where
  | malformed
  | invalidSignature
  | expiredSignature
  | immatureSignature
  | invalidAudience
  | invalidIssuer
deriving DecidableEq

/-- The reason text carried by each validation failure. -/
def JwtCheckError.reason : JwtCheckError → String
  | JwtCheckError.malformed => "Not enough segments"
  | JwtCheckError.invalidSignature => "Signature verification failed"
  | JwtCheckError.expiredSignature => "Signature has expired"
  | JwtCheckError.immatureSignature => "The token is not yet valid (iat)"
  | JwtCheckError.invalidAudience => "Audience doesn't match"
  | JwtCheckError.invalidIssuer => "Invalid issuer"

/-- Modelled from the spec: the decode-and-validate step
`jwt.decode(token, key, algorithms=[RS256], audience=..., issuer=...)` of the
external jwt library (an external collaborator whose source is not part of
this repository), per spec section 4.1: check that the token parses, that its
signature verifies against the configured key set, and that expiry,
issued-at, audience and issuer satisfy the configured constraints; any
failure raises one InvalidTokenError subclass. -/
def jwt_decode (cfg : AuthConfig) (now : Int) (tok : JwtToken) :
    Except JwtCheckError Claims :=
  if tok.wellFormed = false then Except.error JwtCheckError.malformed
  else if tok.signatureValid = false then Except.error JwtCheckError.invalidSignature
  else if tok.exp ≤ now then Except.error JwtCheckError.expiredSignature
  else if now < tok.iat then Except.error JwtCheckError.immatureSignature
  else if tok.aud ≠ cfg.audience then Except.error JwtCheckError.invalidAudience
  else if tok.iss ≠ issuerOf cfg then Except.error JwtCheckError.invalidIssuer
  else Except.ok ⟨tok.sub, tok.aud, tok.iss, tok.exp, tok.iat⟩

/-- Result of the FastAPI dependency `verify_token`: either the decoded
payload, or an HTTPException it raises. -/
inductive AuthResult where
  | ok (payload : Claims)
  | httpError (status : Nat) (detail : String)
deriving DecidableEq

/-- Embedding of `verify_token` (rest_api.py lines 77-102): run the decode
step and collapse every InvalidTokenError into one HTTP 401 response whose
detail embeds the underlying reason. -/
def verify_token (cfg : AuthConfig) (now : Int) (tok : JwtToken) : AuthResult :=
  match jwt_decode cfg now tok with
  | Except.ok payload => AuthResult.ok payload
  | Except.error e => AuthResult.httpError 401 ("Invalid token: " ++ e.reason)

theorem jwt_decode_ok_iff (cfg : AuthConfig) (now : Int) (tok : JwtToken) :
    (∃ p, jwt_decode cfg now tok = Except.ok p) ↔
      (tok.wellFormed = true ∧ tok.signatureValid = true ∧ now < tok.exp ∧
        tok.iat ≤ now ∧ tok.aud = cfg.audience ∧ tok.iss = issuerOf cfg) := by
  rw [jwt_decode]
  split_ifs with h1 h2 h3 h4 h5 h6
  · simp [h1]
  · simp [h2]
  · constructor
    · rintro ⟨p, hp⟩
      cases hp
    · rintro ⟨-, -, hlt, -⟩
      omega
  · constructor
    · rintro ⟨p, hp⟩
      cases hp
    · rintro ⟨-, -, -, hle, -⟩
      omega
  · constructor
    · rintro ⟨p, hp⟩
      cases hp
    · rintro ⟨-, -, -, -, haud, -⟩
      exact absurd haud h5
  · constructor
    · rintro ⟨p, hp⟩
      cases hp
    · rintro ⟨-, -, -, -, -, hiss⟩
      exact absurd hiss h6
  · constructor
    · intro _
      refine ⟨?_, ?_, ?_, ?_, ?_, ?_⟩
      · exact Bool.not_eq_false tok.wellFormed |>.mp h1
      · exact Bool.not_eq_false tok.signatureValid |>.mp h2
      · omega
      · omega
      · exact not_not.mp h5
      · exact not_not.mp h6
    · intro _
      exact ⟨_, rfl⟩

/-- Claim C6: `verify_token` accepts a token exactly when it is well formed,
its signature verifies against the configured key set, it is not expired,
its issued-at is not in the future, and its audience and issuer equal the
configured values; every validation failure is collapsed into a single
HTTP 401 response whose detail is "Invalid token: " followed by the
underlying reason. -/
theorem c6_verify_token_validation (cfg : AuthConfig) (now : Int) (tok : JwtToken) :
    ((∃ p, verify_token cfg now tok = AuthResult.ok p) ↔
      (tok.wellFormed = true ∧ tok.signatureValid = true ∧ now < tok.exp ∧
        tok.iat ≤ now ∧ tok.aud = cfg.audience ∧ tok.iss = issuerOf cfg)) ∧
    (∀ s d, verify_token cfg now tok = AuthResult.httpError s d →
      s = 401 ∧ ∃ e : JwtCheckError, d = "Invalid token: " ++ e.reason) := by
  constructor
  · rw [← jwt_decode_ok_iff cfg now tok]
    constructor
    · rintro ⟨p, hp⟩
      rcases hd : jwt_decode cfg now tok with e | q
      · rw [verify_token, hd] at hp
        cases hp
      · exact ⟨q, rfl⟩
    · rintro ⟨p, hp⟩
      refine ⟨p, ?_⟩
      rw [verify_token, hp]
  · intro s d h
    rcases hd : jwt_decode cfg now tok with e | q
    · rw [verify_token, hd] at h
      cases h
      exact ⟨rfl, e, rfl⟩
    · rw [verify_token, hd] at h
      cases h

/-- Witness for C6: a well-formed, correctly signed token for the default
tenant with valid expiry and issued-at is accepted; flipping the signature
bit on the same token is rejected with a 401 "Invalid token: ..." detail. -/
theorem c6_verify_token_validation_witness :
    (∃ p, verify_token ⟨"https://transformer.bee", "hochfrequenz.eu.auth0.com"⟩ 1000
      ⟨true, true, "https://transformer.bee", "https://hochfrequenz.eu.auth0.com/",
        2000, 500, some "user123"⟩ = AuthResult.ok p) ∧
    (verify_token ⟨"https://transformer.bee", "hochfrequenz.eu.auth0.com"⟩ 1000
      ⟨true, false, "https://transformer.bee", "https://hochfrequenz.eu.auth0.com/",
        2000, 500, some "user123"⟩ =
      AuthResult.httpError 401 ("Invalid token: " ++ "Signature verification failed") →
      (401 : Nat) = 401 ∧ ∃ e : JwtCheckError,
        "Invalid token: " ++ "Signature verification failed" = "Invalid token: " ++ e.reason) :=
  ⟨(c6_verify_token_validation ⟨"https://transformer.bee", "hochfrequenz.eu.auth0.com"⟩ 1000
      ⟨true, true, "https://transformer.bee", "https://hochfrequenz.eu.auth0.com/",
        2000, 500, some "user123"⟩).1.mpr (by decide),
    fun h =>
      (c6_verify_token_validation ⟨"https://transformer.bee", "hochfrequenz.eu.auth0.com"⟩ 1000
        ⟨true, false, "https://transformer.bee", "https://hochfrequenz.eu.auth0.com/",
          2000, 500, some "user123"⟩).2 401
        ("Invalid token: " ++ "Signature verification failed") h⟩

theorem take_append_of_le_len {α : Type} (l1 l2 : List α) (n : Nat) (h : n ≤ l1.length) :
    (l1 ++ l2).take n = l1.take n := by
  induction l1 generalizing n with
  | nil =>
    have : n = 0 := by
      simpa using h
    rw [this]
    simp
  | cons a l ih =>
    cases n with
    | zero => simp
    | succ m =>
      simp only [List.cons_append, List.take_succ_cons]
      rw [ih m (by simpa using h)]

theorem string_ne_of_take_ne (s t : String) (n : Nat) (h : s.data.take n ≠ t.data.take n) :
    s ≠ t := by
  intro he
  exact h (by rw [he])

/-- The detail message of one HTTP 500 response contains a given substring:
there are surrounding character lists around the substring's characters. -/
def hasSubstring (hay needle : String) : Prop :=
  ∃ s t : List Char, s ++ needle.data ++ t = hay.data

/-- Outcome of awaiting the `summarize_edifact(...)` call inside the
try-block of the REST `summarize` handler: a summary, one of the three httpx
exceptions the handler catches (HTTPStatusError with the upstream status
code, ConnectError, TimeoutException), or any other uncaught exception. -/
inductive SummarizeOutcome where
  | success (summary : String)
  | httpStatusError (code : Nat)
  | connectError (msg : String)
  | timeout (msg : String)
  | uncaught (msg : String)
deriving DecidableEq

/-- A response of the REST `/summarize` endpoint: 200 with a summary body,
an HTTPException raised by the handler, or an exception escaping the handler
entirely, which FastAPI turns into a generic 500 Internal Server Error. -/
inductive RestResponse where
  | ok (summary : String)
  | httpException (status : Nat) (detail : String)
  | internalServerError (msg : String)
deriving DecidableEq

/-- Embedding of the try/except translation in the REST `summarize` handler
(rest_api.py lines 166-177): success returns the 200 body; HTTPStatusError,
ConnectError and TimeoutException each map to a distinct HTTP 500 detail;
any other exception escapes the handler. -/
def summarizeHandler : SummarizeOutcome → RestResponse
  | SummarizeOutcome.success s => RestResponse.ok s
  | SummarizeOutcome.httpStatusError code =>
    RestResponse.httpException 500 ("Ollama error: " ++ toString code)
  | SummarizeOutcome.connectError m =>
    RestResponse.httpException 500 ("Cannot connect to Ollama: " ++ m)
  | SummarizeOutcome.timeout m =>
    RestResponse.httpException 500 ("Ollama request timed out: " ++ m)
  | SummarizeOutcome.uncaught m => RestResponse.internalServerError m

/-- Claim C7: on the REST surface a failing summarization step maps to three
distinct HTTP 500 responses: an upstream non-2xx response yields a 500 whose
detail embeds the upstream status code, an unreachable upstream yields a 500
whose detail contains "Cannot connect", and a timeout yields a 500 whose
detail contains "timed out"; for all embedded messages the three details are
pairwise different, so the three failure kinds are never merged. -/
theorem c7_error_translation (code : Nat) (m1 m2 : String) :
    summarizeHandler (SummarizeOutcome.httpStatusError code) =
      RestResponse.httpException 500 ("Ollama error: " ++ toString code) ∧
    summarizeHandler (SummarizeOutcome.connectError m1) =
      RestResponse.httpException 500 ("Cannot connect to Ollama: " ++ m1) ∧
    summarizeHandler (SummarizeOutcome.timeout m2) =
      RestResponse.httpException 500 ("Ollama request timed out: " ++ m2) ∧
    hasSubstring ("Ollama error: " ++ toString code) (toString code) ∧
    hasSubstring ("Cannot connect to Ollama: " ++ m1) "Cannot connect" ∧
    hasSubstring ("Ollama request timed out: " ++ m2) "timed out" ∧
    ("Ollama error: " ++ toString code) ≠ ("Cannot connect to Ollama: " ++ m1) ∧
    ("Ollama error: " ++ toString code) ≠ ("Ollama request timed out: " ++ m2) ∧
    ("Cannot connect to Ollama: " ++ m1) ≠ ("Ollama request timed out: " ++ m2) := by
  refine ⟨rfl, rfl, rfl, ?_, ?_, ?_, ?_, ?_, ?_⟩
  · refine ⟨"Ollama error: ".data, [], ?_⟩
    rw [List.append_nil, String.data_append]
  · refine ⟨[], " to Ollama: ".data ++ m1.data, ?_⟩
    rw [List.nil_append, String.data_append, ← List.append_assoc]
    have hcat : "Cannot connect".data ++ " to Ollama: ".data =
        "Cannot connect to Ollama: ".data := by decide
    rw [hcat]
  · refine ⟨"Ollama request ".data, ": ".data ++ m2.data, ?_⟩
    rw [String.data_append]
    simp only [← List.append_assoc]
    have hcat : ("Ollama request ".data ++ "timed out".data) ++ ": ".data =
        "Ollama request timed out: ".data := by decide
    rw [hcat]
  · refine string_ne_of_take_ne _ _ 1 ?_
    rw [String.data_append, String.data_append,
      take_append_of_le_len _ _ 1 (by decide), take_append_of_le_len _ _ 1 (by decide)]
    decide
  · refine string_ne_of_take_ne _ _ 8 ?_
    rw [String.data_append, String.data_append,
      take_append_of_le_len _ _ 8 (by decide), take_append_of_le_len _ _ 8 (by decide)]
    decide
  · refine string_ne_of_take_ne _ _ 1 ?_
    rw [String.data_append, String.data_append,
      take_append_of_le_len _ _ 1 (by decide), take_append_of_le_len _ _ 1 (by decide)]
    decide

/-- The TypeError message Python raises when `summarize_edifact` is invoked
with only one positional argument: `summarizer.summarize_edifact`
(summarizer.py line 184) declares two required positional parameters
(edifact, auth_token), while the REST handler (rest_api.py line 167) passes
only `request.edifact`. -/
def typeErrorMissingAuthToken : String :=
  "summarize_edifact() missing 1 required positional argument: 'auth_token'"

/-- Python calling convention for `summarize_edifact(edifact, auth_token,
timeout=120.0)`: invoked with both required positional arguments the body
runs (its behavior is the `body` parameter, covering the upstream conversion
and the Ollama generation); invoked with fewer arguments Python raises a
TypeError before the body runs, which none of the handler's httpx except
clauses catches. -/
def call_summarize_edifact (body : String → String → SummarizeOutcome) :
    List String → SummarizeOutcome
  | [edifact, authToken] => body edifact authToken
  | [_] => SummarizeOutcome.uncaught typeErrorMissingAuthToken
  | _ => SummarizeOutcome.uncaught "summarize_edifact() wrong number of arguments"

/-- Embedding of the whole `POST /summarize` handler (rest_api.py lines
155-177): verify the bearer token, key the rate limiter by the payload's
sub claim (default "anonymous"), and on admission evaluate the call
`summarize_edifact(request.edifact)` — one positional argument — through the
try/except translation.  The per-identity store map is threaded through. -/
def summarize_endpoint (authCfg : AuthConfig) (rlCfg : RateLimitConfig)
    (nowAuth : Int) (now : ℚ) (tok : JwtToken)
    (body : String → String → SummarizeOutcome)
    (store : String → List ℚ) (edifact : String) :
    RestResponse × (String → List ℚ) :=
  match verify_token authCfg nowAuth tok with
  | AuthResult.httpError s d => (RestResponse.httpException s d, store)
  | AuthResult.ok payload =>
    let uid := payload.sub.getD "anonymous"
    let c := check_rate_limit rlCfg (store uid) now
    let storeNew := fun u => if u = uid then c.2 else store u
    match c.1 with
    | AdmitResult.rateLimitExceeded s d => (RestResponse.httpException s d, storeNew)
    | AdmitResult.ok =>
      (summarizeHandler (call_summarize_edifact body [edifact]), storeNew)

/-- Claim C2 (code bug): a request with a valid token for identity "user123"
whose rate-limit window is empty, with the summarization step behaving as
any function at all — in particular one that would return the summary S —
never produces the 200 response with body S: the call
`summarize_edifact(request.edifact)` supplies one positional argument to a
function with two required positional parameters, so a TypeError escapes the
handler and FastAPI produces a generic 500 instead. -/
theorem c2_rest_summarize_type_error (body : String → String → SummarizeOutcome)
    (S edifact : String) :
    call_summarize_edifact body [edifact] =
      SummarizeOutcome.uncaught typeErrorMissingAuthToken ∧
    (summarize_endpoint ⟨"https://transformer.bee", "hochfrequenz.eu.auth0.com"⟩ ⟨10, 60⟩
        1000 0
        ⟨true, true, "https://transformer.bee", "https://hochfrequenz.eu.auth0.com/",
          2000, 500, some "user123"⟩
        body (fun _ => []) edifact).1 =
      RestResponse.internalServerError typeErrorMissingAuthToken ∧
    (summarize_endpoint ⟨"https://transformer.bee", "hochfrequenz.eu.auth0.com"⟩ ⟨10, 60⟩
        1000 0
        ⟨true, true, "https://transformer.bee", "https://hochfrequenz.eu.auth0.com/",
          2000, 500, some "user123"⟩
        (fun _ _ => SummarizeOutcome.success S) (fun _ => []) edifact).1 ≠
      RestResponse.ok S := by
  refine ⟨rfl, ?_, ?_⟩
  · rfl
  · intro h
    cases h

/-- The health snapshot value object returned by `check_ollama_health`
(summarizer.py lines 21-28). -/
structure OllamaHealthStatus where
  ollama_host : String
  ollama_reachable : Bool
  model : String
  model_available : Bool
  error : Option String
deriving DecidableEq

/-- Outcome of the GET `/api/tags` request issued by `check_ollama_health`:
an HTTP response with a status code and the parsed model names of its JSON
body, a connection failure (httpx.ConnectError), or any other unexpected
exception. -/
inductive TagsOutcome where
  | response (status : Nat) (models : List String)
  | connectFailure (msg : String)
  | unexpectedError (msg : String)
deriving DecidableEq

/-- httpx `raise_for_status` raises unless the status code is a 2xx success
status. -/
def isSuccessStatus (s : Nat) : Bool :=
  decide (200 ≤ s) && decide (s < 300)

/-- The bare model name used on summarizer.py line 67:
Python `name.split(":")[0]`, i.e. the characters before the first colon. -/
def bareModelName (n : String) : String :=
  String.mk (n.data.takeWhile (fun c => c != ':'))

/-- Python `repr` of a string, as used when a list of model names is
formatted into the "not found" error message by the f-string on
summarizer.py line 74. -/
def pyStrRepr (s : String) : String :=
  "'" ++ s ++ "'"

/-- Python string formatting of a list of strings. -/
def pyListRepr (l : List String) : String :=
  "[" ++ String.intercalate ", " (l.map pyStrRepr) ++ "]"

/-- Embedding of `check_ollama_health` (summarizer.py lines 44-91): on a 2xx
response the service is reachable and the configured model is available iff
it matches a listed name's bare part before the colon or a full listed name;
on a non-2xx response `raise_for_status` raises HTTPStatusError, whose
except clause still marks the service reachable ("It responded, just with an
error") and records the status code; a connection failure or any unexpected
error is captured into the snapshot with reachable and available false.
The function never raises. -/
def check_ollama_health (model host : String) (outcome : TagsOutcome) :
    OllamaHealthStatus :=
  match outcome with
  | TagsOutcome.response status models =>
    if isSuccessStatus status then
      if model ∈ models.map bareModelName ∨ model ∈ models then
        ⟨host, true, model, true, none⟩
      else
        ⟨host, true, model, false,
          some ("Model '" ++ model ++ "' not found. Available: " ++ pyListRepr models)⟩
    else
      ⟨host, true, model, false, some ("Ollama returned error: " ++ toString status)⟩
  | TagsOutcome.connectFailure msg =>
    ⟨host, false, model, false,
      some ("Cannot connect to Ollama at " ++ host ++ ": " ++ msg)⟩
  | TagsOutcome.unexpectedError msg =>
    ⟨host, false, model, false, some ("Unexpected error: " ++ msg)⟩

/-- Counterexample to claim C8: when the models-listing endpoint responds
with status 500 — not a success status — the snapshot's reachable field is
true, not false: the except branch for HTTPStatusError deliberately sets
`ollama_reachable = True` (summarizer.py line 79). -/
theorem c8_nonsuccess_reachable_counterexample :
    isSuccessStatus 500 = false ∧
    (check_ollama_health "llama3" "http://localhost:11434"
      (TagsOutcome.response 500 [])).ollama_reachable = true := by
  exact ⟨rfl, rfl⟩

/-- Claim C8 as amended: the snapshot's reachable field is true iff the
models-listing request returns an HTTP response at all (success or error
status); on a non-success status the snapshot is reachable with
model_available false and an error embedding the upstream status code, and
only a connection failure or an unexpected error makes reachable false. -/
theorem c8_reachable_iff_responded (model host : String) (outcome : TagsOutcome) :
    ((check_ollama_health model host outcome).ollama_reachable = true ↔
      ∃ status models, outcome = TagsOutcome.response status models) ∧
    (∀ status models, isSuccessStatus status = false →
      check_ollama_health model host (TagsOutcome.response status models) =
        ⟨host, true, model, false, some ("Ollama returned error: " ++ toString status)⟩) := by
  constructor
  · cases outcome with
    | response status models =>
      rw [check_ollama_health]
      split_ifs with h1 h2
      · simp
      · simp
      · simp
    | connectFailure msg => simp [check_ollama_health]
    | unexpectedError msg => simp [check_ollama_health]
  · intro status models hs
    rw [check_ollama_health]
    rw [if_neg (by rw [hs]; exact Bool.false_ne_true)]

/-- Witness for C8 (amended): a 500-status response yields a snapshot that
is reachable with model_available false and the status code in the error. -/
theorem c8_reachable_iff_responded_witness :
    ((check_ollama_health "llama3" "http://localhost:11434"
        (TagsOutcome.response 500 ["tinyllama:latest"])).ollama_reachable = true ↔
      ∃ status models, TagsOutcome.response 500 ["tinyllama:latest"] =
        TagsOutcome.response (status : Nat) (models : List String)) ∧
    check_ollama_health "llama3" "http://localhost:11434"
        (TagsOutcome.response 500 ["tinyllama:latest"]) =
      ⟨"http://localhost:11434", true, "llama3", false,
        some ("Ollama returned error: " ++ toString (500 : Nat))⟩ :=
  ⟨(c8_reachable_iff_responded "llama3" "http://localhost:11434"
      (TagsOutcome.response 500 ["tinyllama:latest"])).1,
    (c8_reachable_iff_responded "llama3" "http://localhost:11434"
      (TagsOutcome.response 500 ["tinyllama:latest"])).2 500 ["tinyllama:latest"] (by decide)⟩

/-- Claim C9: with configured model "llama3", a model list containing
"llama3:latest" makes model_available true (bare-name match); a list with
only "tinyllama:latest" makes it false with an error mentioning "not found";
a connection failure makes both reachable and model_available false; and in
general, on a 2xx listing response, model_available is true iff the
configured name matches a listed name's bare part before the colon or a full
listed name. -/
theorem c9_model_availability (host msg : String) (models : List String) :
    (check_ollama_health "llama3" host
      (TagsOutcome.response 200 ["llama3:latest"])).model_available = true ∧
    (check_ollama_health "llama3" host
      (TagsOutcome.response 200 ["tinyllama:latest"])).model_available = false ∧
    (∃ e, (check_ollama_health "llama3" host
        (TagsOutcome.response 200 ["tinyllama:latest"])).error = some e ∧
      hasSubstring e "not found") ∧
    ((check_ollama_health "llama3" host
        (TagsOutcome.connectFailure msg)).ollama_reachable = false ∧
      (check_ollama_health "llama3" host
        (TagsOutcome.connectFailure msg)).model_available = false) ∧
    ((check_ollama_health "llama3" host
        (TagsOutcome.response 200 models)).model_available = true ↔
      ("llama3" ∈ models.map bareModelName ∨ "llama3" ∈ models)) := by
  refine ⟨rfl, rfl, ?_, ⟨rfl, rfl⟩, ?_⟩
  · refine ⟨"Model 'llama3' not found. Available: ['tinyllama:latest']", rfl, ?_⟩
    exact ⟨"Model 'llama3' ".data, ". Available: ['tinyllama:latest']".data, by decide⟩
  · rw [check_ollama_health, if_pos (by decide : isSuccessStatus 200 = true)]
    split_ifs with h
    · simp only [true_iff]
      exact h
    · simp only [Bool.false_eq_true, false_iff]
      exact h

/-- A BO4E transaction object (transformerbeeclient BOneyComb), kept opaque
except for its serialized dump. -/
structure BOneyComb where
  dump : String
deriving DecidableEq

/-- One decoded EDIFACT message unit (transformerbeeclient Marktnachricht):
its UNH identifier, its transactions, and its `model_dump_json()`
serialization, kept opaque. -/
structure Marktnachricht where
  unh : String
  transaktionen : List BOneyComb
  dumpJson : String
deriving DecidableEq

/-- Outcome of the `convert_edifact_to_bo4e` MCP tool body applied to the
conversion result: the first transaction's dump, a NotImplementedError, or
an IndexError from an unguarded `[0]` on an empty list. -/
inductive ToolOutcome (A : Type) where
  | ok (value : A)
  | notImplementedError (msg : String)
  | indexError
deriving DecidableEq

/-- Embedding of the `convert_edifact_to_bo4e` MCP tool (server.py lines
77-104) applied to the message units returned by the upstream conversion
client: more than one unit raises NotImplementedError; then the first unit
is indexed (IndexError when the list is empty); more than one transaction in
that unit raises NotImplementedError; then the first transaction is indexed
(IndexError when its transaction list is empty) and returned. -/
def convert_edifact_to_bo4e (ms : List Marktnachricht) : ToolOutcome BOneyComb :=
  if 1 < ms.length then
    ToolOutcome.notImplementedError
      ("More than 1 Marktnachricht (got " ++ toString ms.length ++ ") not support yet")
  else
    match ms with
    | [] => ToolOutcome.indexError
    | m :: _ =>
      if 1 < m.transaktionen.length then
        ToolOutcome.notImplementedError
          ("More than 1 transaction (got " ++ toString m.transaktionen.length ++
            ") not support yet")
      else
        match m.transaktionen with
        | [] => ToolOutcome.indexError
        | t :: _ => ToolOutcome.ok t

/-- The serialization on server.py line 154 (and summarizer.py line 147):
all message units are joined into one JSON array string. -/
def serialize_marktnachrichten (ms : List Marktnachricht) : String :=
  "[" ++ String.intercalate "," (ms.map Marktnachricht.dumpJson) ++ "]"

/-- Embedding of the `summarize_edifact_message` MCP tool (server.py lines
126-164) applied to the message units returned by the upstream conversion
client: every unit is serialized into one JSON array and handed to
`summarize_bo4e` (whose behavior is the parameter); there is no check on the
number of message units or transactions. -/
def summarize_edifact_message (summarize_bo4e : String → SummarizeOutcome)
    (ms : List Marktnachricht) : SummarizeOutcome :=
  summarize_bo4e (serialize_marktnachrichten ms)

/-- Counterexample to claim C3: a conversion result with two message units
does not make the summarize pipeline fail with an unimplemented-case error —
`summarize_edifact_message` performs no multiplicity check and instead
passes the serialization of both units to the summarizer, succeeding when
the summarizer succeeds.  (The summarizer here returns its prompt, so the
result exhibits exactly what was summarized: both units, untruncated.) -/
theorem c3_summarize_no_multiplicity_check_counterexample :
    summarize_edifact_message SummarizeOutcome.success
        [⟨"UNH1", [⟨"t1"⟩], "m1json"⟩, ⟨"UNH2", [⟨"t2"⟩], "m2json"⟩] =
      SummarizeOutcome.success "[m1json,m2json]" := by
  decide

/-- Claim C3 as amended: the `convert_edifact_to_bo4e` tool fails loudly
with NotImplementedError on a conversion result with more than one message
unit, and on a single unit with more than one transaction; the summarize
pipeline (`summarize_edifact_message`) performs no such check — it
serializes all message units without truncation and forwards them to the
summarizer. -/
theorem c3_multiplicity_handling (ms : List Marktnachricht) (m : Marktnachricht)
    (f : String → SummarizeOutcome)
    (hms : 1 < ms.length) (hm : 1 < m.transaktionen.length) :
    convert_edifact_to_bo4e ms =
      ToolOutcome.notImplementedError
        ("More than 1 Marktnachricht (got " ++ toString ms.length ++ ") not support yet") ∧
    convert_edifact_to_bo4e [m] =
      ToolOutcome.notImplementedError
        ("More than 1 transaction (got " ++ toString m.transaktionen.length ++
          ") not support yet") ∧
    summarize_edifact_message f ms =
      f ("[" ++ String.intercalate "," (ms.map Marktnachricht.dumpJson) ++ "]") := by
  refine ⟨?_, ?_, rfl⟩
  · rw [convert_edifact_to_bo4e.eq_def, if_pos hms]
  · rw [convert_edifact_to_bo4e.eq_def,
      if_neg (by simp : ¬(1 < ([m] : List Marktnachricht).length))]
    exact if_pos hm

/-- Witness for C3 (amended): a two-unit conversion result makes the convert
tool raise NotImplementedError, a unit with two transactions likewise, and
the summarize pipeline forwards both units of the two-unit result. -/
theorem c3_multiplicity_handling_witness :
    convert_edifact_to_bo4e
        [⟨"UNH1", [⟨"t1"⟩], "m1json"⟩, ⟨"UNH2", [⟨"t2"⟩], "m2json"⟩] =
      ToolOutcome.notImplementedError
        ("More than 1 Marktnachricht (got " ++ toString
          ([⟨"UNH1", [⟨"t1"⟩], "m1json"⟩,
            (⟨"UNH2", [⟨"t2"⟩], "m2json"⟩ : Marktnachricht)] : List Marktnachricht).length
          ++ ") not support yet") ∧
    convert_edifact_to_bo4e [⟨"UNH3", [⟨"t1"⟩, ⟨"t2"⟩], "m3json"⟩] =
      ToolOutcome.notImplementedError
        ("More than 1 transaction (got " ++ toString
          (⟨"UNH3", [⟨"t1"⟩, ⟨"t2"⟩], "m3json"⟩ : Marktnachricht).transaktionen.length
          ++ ") not support yet") ∧
    summarize_edifact_message SummarizeOutcome.success
        [⟨"UNH1", [⟨"t1"⟩], "m1json"⟩, ⟨"UNH2", [⟨"t2"⟩], "m2json"⟩] =
      SummarizeOutcome.success
        ("[" ++ String.intercalate ","
          (([⟨"UNH1", [⟨"t1"⟩], "m1json"⟩,
            (⟨"UNH2", [⟨"t2"⟩], "m2json"⟩ : Marktnachricht)] :
              List Marktnachricht).map Marktnachricht.dumpJson) ++ "]") :=
  c3_multiplicity_handling
    [⟨"UNH1", [⟨"t1"⟩], "m1json"⟩, ⟨"UNH2", [⟨"t2"⟩], "m2json"⟩]
    ⟨"UNH3", [⟨"t1"⟩, ⟨"t2"⟩], "m3json"⟩
    SummarizeOutcome.success (by decide) (by decide)

/-- Claim C10: the `convert_edifact_to_bo4e` tool guards only the
more-than-one cases: an empty conversion result — and likewise a single
message unit with an empty transaction list — is not caught by the
NotImplementedError checks and instead fails with an out-of-bounds
IndexError from the unguarded `[0]` indexing. -/
theorem c10_convert_tool_unguarded_empty (u d : String) :
    convert_edifact_to_bo4e ([] : List Marktnachricht) = ToolOutcome.indexError ∧
    convert_edifact_to_bo4e [⟨u, [], d⟩] = ToolOutcome.indexError := by
  constructor
  · rfl
  · rw [convert_edifact_to_bo4e.eq_def,
      if_neg (by simp : ¬(1 < ([⟨u, [], d⟩] : List Marktnachricht).length))]
    rfl
